import Mathlib

/-!
Shallow embedding of the `lode` load-testing core (crate `lode-core`) and proofs
about its metrics aggregator, outcome tracker, configuration validation and
dispatcher scheduling.

Conventions of the embedding:
* `Duration` values are carried as natural numbers of nanoseconds
  (Rust `std::time::Duration` holds non-negative seconds + nanos);
  `as_micros` is truncating division by 1000, `as_secs` truncating
  division by 1_000_000_000.
* `Instant` values are points on an abstract monotone clock, carried as
  natural numbers of nanoseconds; `start.elapsed()` at time `now` is
  `now - start`.
* `u64` counters are carried as `Nat`: a single run records at most
  `num_requests : u64` outcomes, so no counter can wrap in any state
  reachable through the public API.
* `reqwest::StatusCode` is carried as its numeric `u16` value;
  `reqwest::Error` is carried as its observable surface: the optional
  associated status (`Error::status()`) and its display text
  (`Error::to_string()`).
* `f64` arithmetic in `finalize` is carried out in `ℚ`: the only
  comparison the code performs (`as_secs_f64() > 0.0`) is exact in `f64`,
  and the spec reads the quotient "within floating-point tolerance".
* The fields `log_batch_size`/`last_batch_log` drive only the periodic
  progress log (tracing output); the log branch mutates no counter, so
  the embedding keeps `log_batch_size` and drops the log timestamp.
-/

namespace Lode

/-- HTTP status code, carried as its numeric `u16` value
(`reqwest::StatusCode`, constructible for 100..=999). -/
abbrev StatusCode := Nat

/-- `StatusCode::is_success()`: the status class is 2xx. -/
def isSuccess (c : StatusCode) : Bool := 200 ≤ c && c < 300

/-- `StatusCode::canonical_reason()` — the registered reason phrase table of
the `http` crate (`status_codes!` in `http::status`); `none` for codes
without a registered phrase. -/
def canonicalReason : StatusCode → Option String
  | 100 => some "Continue"
  | 101 => some "Switching Protocols"
  | 102 => some "Processing"
  | 200 => some "OK"
  | 201 => some "Created"
  | 202 => some "Accepted"
  | 203 => some "Non Authoritative Information"
  | 204 => some "No Content"
  | 205 => some "Reset Content"
  | 206 => some "Partial Content"
  | 207 => some "Multi-Status"
  | 208 => some "Already Reported"
  | 226 => some "IM Used"
  | 300 => some "Multiple Choices"
  | 301 => some "Moved Permanently"
  | 302 => some "Found"
  | 303 => some "See Other"
  | 304 => some "Not Modified"
  | 305 => some "Use Proxy"
  | 307 => some "Temporary Redirect"
  | 308 => some "Permanent Redirect"
  | 400 => some "Bad Request"
  | 401 => some "Unauthorized"
  | 402 => some "Payment Required"
  | 403 => some "Forbidden"
  | 404 => some "Not Found"
  | 405 => some "Method Not Allowed"
  | 406 => some "Not Acceptable"
  | 407 => some "Proxy Authentication Required"
  | 408 => some "Request Timeout"
  | 409 => some "Conflict"
  | 410 => some "Gone"
  | 411 => some "Length Required"
  | 412 => some "Precondition Failed"
  | 413 => some "Payload Too Large"
  | 414 => some "URI Too Long"
  | 415 => some "Unsupported Media Type"
  | 416 => some "Range Not Satisfiable"
  | 417 => some "Expectation Failed"
  | 418 => some "I\x27m a teapot"
  | 421 => some "Misdirected Request"
  | 422 => some "Unprocessable Entity"
  | 423 => some "Locked"
  | 424 => some "Failed Dependency"
  | 426 => some "Upgrade Required"
  | 428 => some "Precondition Required"
  | 429 => some "Too Many Requests"
  | 431 => some "Request Header Fields Too Large"
  | 451 => some "Unavailable For Legal Reasons"
  | 500 => some "Internal Server Error"
  | 501 => some "Not Implemented"
  | 502 => some "Bad Gateway"
  | 503 => some "Service Unavailable"
  | 504 => some "Gateway Timeout"
  | 505 => some "HTTP Version Not Supported"
  | 506 => some "Variant Also Negotiates"
  | 507 => some "Insufficient Storage"
  | 508 => some "Loop Detected"
  | 510 => some "Not Extended"
  | 511 => some "Network Authentication Required"
  | _ => none

/-- `StatusCode`'s `Display` (hence `.to_string()`): the numeric code, a
space, and the canonical reason phrase or the literal
`"<unknown status code>"`. -/
def statusToString (c : StatusCode) : String :=
  toString c ++ " " ++ (canonicalReason c).getD "<unknown status code>"

/-- Observable surface of a `reqwest::Error`: `Error::status()` (the
associated status code, when the error stems from a response) and
`Error::to_string()` (its descriptive display text). -/
structure ReqwestErr where
  status : Option StatusCode
  message : String
  deriving Repr, DecidableEq

/-- `RequestMetrics` (metrics.rs): lifecycle tracker of one request. -/
structure RequestMetrics where
  start_time : Nat
  duration : Option Nat
  status : Option StatusCode
  error : Option ReqwestErr
  deriving Repr, DecidableEq

namespace RequestMetrics

/-- `RequestMetrics::new()` at clock instant `now`. -/
def new (now : Nat) : RequestMetrics :=
  { start_time := now, duration := none, status := none, error := none }

/-- `RequestMetrics::complete(status)` called at clock instant `now`:
fills `duration` with the elapsed time only if still unset, then records
the status. -/
def complete (m : RequestMetrics) (now : Nat) (s : StatusCode) : RequestMetrics :=
  { m with
    duration := match m.duration with
      | none => some (now - m.start_time)
      | some d => some d
    status := some s }

/-- `RequestMetrics::record_error(error)` called at clock instant `now`:
fills `duration` with the elapsed time only if still unset, then records
the error. -/
def record_error (m : RequestMetrics) (now : Nat) (e : ReqwestErr) : RequestMetrics :=
  { m with
    duration := match m.duration with
      | none => some (now - m.start_time)
      | some d => some d
    error := some e }

end RequestMetrics

/-- Lowest and highest trackable value of the response-time histogram
(`Histogram::new_with_bounds(1, 60_000_000, 3)`), in microseconds. -/
def histLow : Nat := 1

/-- Highest trackable value of the response-time histogram, microseconds. -/
def histHigh : Nat := 60000000

/-- Modelled from the spec: `hdrhistogram::Histogram::record` on the
histogram built with bounds `[1, 60_000_000]` — the external histogram
collaborator "records positive integer microsecond latencies in the closed
range [1, 60_000_000]"; a value outside the recordable range is rejected
(the caller discards the `Err`). The histogram state is carried as the
list of accepted values in recording order. -/
def histRecord (h : List Nat) (v : Nat) : List Nat :=
  if histLow ≤ v ∧ v ≤ histHigh then h ++ [v] else h

/-- Increment-or-insert on the association list that carries
`HashMap<String, u64>`: `*map.entry(key).or_insert(0) += 1`. -/
def incr (counts : List (String × Nat)) (key : String) : List (String × Nat) :=
  match counts with
  | [] => [(key, 1)]
  | (k, v) :: rest => if k = key then (k, v + 1) :: rest else (k, v) :: incr rest key

/-- Sum of the occurrence counts stored in an error-count map. -/
def sumCounts (counts : List (String × Nat)) : Nat :=
  (counts.map Prod.snd).sum

/-- `TestMetrics` (metrics.rs): the shared metrics aggregator. -/
structure TestMetrics where
  total_requests : Nat
  successful_requests : Nat
  failed_requests : Nat
  total_duration : Nat
  requests_per_second : ℚ
  response_times : List Nat
  error_counts : List (String × Nat)
  error_messages : List String
  log_batch_size : Nat
  deriving Repr, DecidableEq

namespace TestMetrics

/-- `TestMetrics::new()` — always succeeds (the fixed histogram bounds
`(1, 60_000_000, 3)` are valid, so the `Result` is always `Ok`). -/
def new : TestMetrics :=
  { total_requests := 0
    successful_requests := 0
    failed_requests := 0
    total_duration := 0
    requests_per_second := 0
    response_times := []
    error_counts := []
    error_messages := []
    log_batch_size := 100 }

/-- `TestMetrics::record_request(metrics)`. -/
def record_request (m : TestMetrics) (rm : RequestMetrics) : TestMetrics :=
  let m1 : TestMetrics := { m with total_requests := m.total_requests + 1 }
  let m2 : TestMetrics :=
    match rm.duration with
    | some d =>
        if 1 ≤ d / 1000 then
          { m1 with response_times := histRecord m1.response_times (d / 1000) }
        else m1
    | none => m1
  match rm.status, rm.error with
  | some s, none =>
      if isSuccess s then
        { m2 with successful_requests := m2.successful_requests + 1 }
      else
        { m2 with
          failed_requests := m2.failed_requests + 1
          error_counts := incr m2.error_counts ("HTTP " ++ toString s)
          error_messages :=
            m2.error_messages ++ [(canonicalReason s).getD (statusToString s)] }
  | none, some e =>
      { m2 with
        failed_requests := m2.failed_requests + 1
        error_counts :=
          incr m2.error_counts
            ((e.status.map (fun s => "HTTP " ++ toString s)).getD "Unknown Error")
        error_messages := m2.error_messages ++ [e.message] }
  | none, none =>
      { m2 with
        failed_requests := m2.failed_requests + 1
        error_counts := incr m2.error_counts "Unknown Error"
        error_messages := m2.error_messages ++ ["Unknown Error"] }
  | some _, some _ =>
      { m2 with
        failed_requests := m2.failed_requests + 1
        error_counts := incr m2.error_counts "Unknown Error"
        error_messages := m2.error_messages ++ ["Unknown Error"] }

/-- `TestMetrics::finalize(duration)`: stores the wall duration and the
throughput `total_requests / duration.as_secs_f64()` (0 when the duration
is zero). `duration.as_secs_f64() > 0.0` holds exactly when the duration
has at least one nanosecond. -/
def finalize (m : TestMetrics) (d : Nat) : TestMetrics :=
  { m with
    total_duration := d
    requests_per_second :=
      if 0 < d then (m.total_requests : ℚ) / ((d : ℚ) / 1000000000) else 0 }

end TestMetrics

/-- Modelled from the spec: the histogram's order-statistic queries,
idealized as exact order statistics over the recorded values — the
external `hdrhistogram` collaborator answers them "with bounded relative
error (3 significant decimal digits of precision)" and is contractually
required to preserve the `min ≤ median ≤ p95 ≤ p99 ≤ max` and
`min ≤ mean ≤ max` orderings. The recorded multiset in ascending order. -/
def histSorted (h : List Nat) : List Nat := h.insertionSort (· ≤ ·)

/-- `Histogram::min()`: least recorded value — the first element of the
ascending recorded multiset (0 on an empty histogram). -/
def histMin (h : List Nat) : Nat := (histSorted h).getD 0 0

/-- `Histogram::max()`: greatest recorded value — the last element of the
ascending recorded multiset (0 on an empty histogram). -/
def histMax (h : List Nat) : Nat :=
  (histSorted h).getD ((histSorted h).length - 1) 0

/-- `Histogram::mean()` truncated to whole microseconds
(`mean() as u64`): arithmetic mean of the recorded values. -/
def histMean (h : List Nat) : Nat := h.sum / h.length

/-- 1-based rank of the `p`-th percentile among `n` samples:
`max(1, ⌈p·n/100⌉)`. -/
def percentileRank (p n : Nat) : Nat := max 1 ((p * n + 99) / 100)

/-- `Histogram::value_at_percentile(p)`: the recorded value at the
`p`-th-percentile rank. -/
def histValueAtPercentile (h : List Nat) (p : Nat) : Nat :=
  (histSorted h).getD (percentileRank p h.length - 1) 0

namespace TestMetrics

/-- `TestMetrics::min_response_time()`, in whole microseconds
(`Duration::from_micros` is injective and monotone, so durations are
compared through their microsecond values). -/
def min_response_time (m : TestMetrics) : Nat :=
  if m.response_times.length = 0 then 0 else histMin m.response_times

/-- `TestMetrics::max_response_time()`, in whole microseconds. -/
def max_response_time (m : TestMetrics) : Nat :=
  if m.response_times.length = 0 then 0 else histMax m.response_times

/-- `TestMetrics::mean_response_time()`, in whole microseconds. -/
def mean_response_time (m : TestMetrics) : Nat :=
  if m.response_times.length = 0 then 0 else histMean m.response_times

/-- `TestMetrics::median_response_time()`, in whole microseconds. -/
def median_response_time (m : TestMetrics) : Nat :=
  if m.response_times.length = 0 then 0 else histValueAtPercentile m.response_times 50

/-- `TestMetrics::p95_response_time()`, in whole microseconds. -/
def p95_response_time (m : TestMetrics) : Nat :=
  if m.response_times.length = 0 then 0 else histValueAtPercentile m.response_times 95

/-- `TestMetrics::p99_response_time()`, in whole microseconds. -/
def p99_response_time (m : TestMetrics) : Nat :=
  if m.response_times.length = 0 then 0 else histValueAtPercentile m.response_times 99

end TestMetrics

/-! ## Configuration (config.rs) -/

/-- `HttpMethod` (config.rs). -/
inductive HttpMethod where
  | GET | POST | PUT | DELETE | PATCH
  deriving Repr, DecidableEq

/-- `ConfigError` (config.rs). -/
inductive ConfigError where
  | InvalidUrl (msg : String)
  | InvalidConcurrency (msg : String)
  | InvalidRequests (msg : String)
  | InvalidTimeout (msg : String)
  | InvalidMethod (msg : String)
  deriving Repr, DecidableEq

/-- `LoadTestConfig` (config.rs). Timeout in nanoseconds. -/
structure LoadTestConfig where
  url : String
  method : HttpMethod
  requests : Nat
  concurrency : Nat
  timeout : Nat
  headers : List (String × String)
  body : Option String
  deriving Repr, DecidableEq

namespace LoadTestConfig

/-- `LoadTestConfig::new(url, method, requests, concurrency, timeout)`.
`urlParseOk` carries the verdict of the external `url` crate's
`Url::parse(&url)` (URL syntax is the collaborator's contract, not this
crate's code). The timeout check is `timeout.as_secs() == 0`, i.e.
truncating whole seconds. -/
def new (url : String) (urlParseOk : Bool) (method : HttpMethod)
    (requests concurrency : Nat) (timeout : Nat) :
    Except ConfigError LoadTestConfig :=
  if ¬ urlParseOk then
    .error (.InvalidUrl "relative URL without a base")
  else if requests = 0 then
    .error (.InvalidRequests "Number of requests must be greater than 0")
  else if concurrency = 0 then
    .error (.InvalidConcurrency "Concurrency must be greater than 0")
  else if concurrency > requests then
    .error (.InvalidConcurrency "Concurrency cannot be greater than the number of requests")
  else if timeout / 1000000000 = 0 then
    .error (.InvalidTimeout "Timeout must be greater than 0 seconds")
  else
    .ok { url := url, method := method, requests := requests,
          concurrency := concurrency, timeout := timeout,
          headers := [], body := none }

end LoadTestConfig

/-! ## Dispatcher (engine.rs) -/

/-- One result of the Executor contract
(`HttpClient::send_request -> Result<Response, ReqwestError>`): either a
response (observed through its status) or a transport error. -/
inductive ExecResult where
  | ok (status : StatusCode)
  | err (e : ReqwestErr)
  deriving Repr, DecidableEq

/-- One logical request as the engine observes it: the executor's result
together with the clock instants at which its `RequestMetrics` was created
and at which its terminal transition ran. -/
structure CompletedRequest where
  result : ExecResult
  start : Nat
  finish : Nat
  deriving Repr, DecidableEq

/-- The per-request body of `LoadTestEngine::run`: build the tracker,
apply the terminal transition matching the executor's result, and fold the
outcome into the aggregator under the mutex. -/
def recordCompleted (m : TestMetrics) (r : CompletedRequest) : TestMetrics :=
  match r.result with
  | .ok s => m.record_request ((RequestMetrics.new r.start).complete r.finish s)
  | .err e => m.record_request ((RequestMetrics.new r.start).record_error r.finish e)

namespace LoadTestEngine

/-- `LoadTestEngine::run`: every one of the `N` logical requests reaches
its terminal outcome and is folded into one shared aggregator, then the
aggregator is finalized with the wall-clock duration. `completions` is
the sequence of the run's requests in aggregator-lock acquisition order —
an arbitrary interleaving, since `buffer_unordered` guarantees no
completion order. The concurrency ceiling only constrains scheduling
(see `SchedStep`), never the multiset of recorded outcomes. -/
def run (completions : List CompletedRequest) (wall : Nat) : TestMetrics :=
  (completions.foldl recordCompleted TestMetrics.new).finalize wall

end LoadTestEngine

/-- State of the dispatcher's scheduler: how many of the `N` logical
requests are still pending, in flight, and completed. -/
structure SchedState where
  pending : Nat
  inFlight : Nat
  completed : Nat
  deriving Repr, DecidableEq

/-- Modelled from the spec: one scheduling step of
`stream::iter(0..N).buffer_unordered(C)` — the combinator polls (starts)
the next pending future only while fewer than `C` are in flight, and any
in-flight future may finish; as soon as one finishes a slot frees up and
the next pending request may start immediately. -/
inductive SchedStep (C : Nat) : SchedState → SchedState → Prop where
  | start : ∀ s : SchedState, 0 < s.pending → s.inFlight < C →
      SchedStep C s ⟨s.pending - 1, s.inFlight + 1, s.completed⟩
  | finish : ∀ s : SchedState, 0 < s.inFlight →
      SchedStep C s ⟨s.pending, s.inFlight - 1, s.completed + 1⟩

/-- Scheduler states reachable during a run of `N` requests under
concurrency ceiling `C`. -/
inductive SchedReachable (C N : Nat) : SchedState → Prop where
  | init : SchedReachable C N ⟨N, 0, 0⟩
  | step : ∀ s t : SchedState, SchedReachable C N s → SchedStep C s t →
      SchedReachable C N t

/-! ## Helper lemmas -/

theorem sumCounts_incr (counts : List (String × Nat)) (key : String) :
    sumCounts (incr counts key) = sumCounts counts + 1 := by
  induction counts with
  | nil => simp [incr, sumCounts]
  | cons p rest ih =>
      obtain ⟨k, v⟩ := p
      by_cases hk : k = key
      · simp [incr, hk, sumCounts]
        omega
      · simp [incr, hk, sumCounts] at *
        omega

theorem record_request_total (m : TestMetrics) (rm : RequestMetrics) :
    (m.record_request rm).total_requests = m.total_requests + 1 := by
  obtain ⟨st, dur, stat, err⟩ := rm
  cases stat <;> cases err <;> cases dur <;>
    simp only [TestMetrics.record_request] <;>
    split_ifs <;> rfl

theorem record_request_succ_add_failed (m : TestMetrics) (rm : RequestMetrics) :
    (m.record_request rm).successful_requests + (m.record_request rm).failed_requests =
      m.successful_requests + m.failed_requests + 1 := by
  obtain ⟨st, dur, stat, err⟩ := rm
  cases stat <;> cases err <;> cases dur <;>
    simp only [TestMetrics.record_request] <;>
    (try split_ifs) <;> (try simp) <;> omega

theorem record_request_keeps_taxonomy (m : TestMetrics) (rm : RequestMetrics)
    (h1 : sumCounts m.error_counts = m.failed_requests)
    (h2 : m.error_messages.length = m.failed_requests) :
    sumCounts (m.record_request rm).error_counts = (m.record_request rm).failed_requests ∧
      (m.record_request rm).error_messages.length = (m.record_request rm).failed_requests := by
  obtain ⟨st, dur, stat, err⟩ := rm
  cases stat <;> cases err <;> cases dur <;>
    simp only [TestMetrics.record_request] <;>
    (try split_ifs) <;>
    (try simp [sumCounts_incr, h1, h2])

/-! ## C8 — outcome tracker elapsed-time capture is idempotent -/

/-- C8: `RequestMetrics` elapsed-time capture is idempotent: the elapsed
duration is computed on the first terminal transition (`complete` or
`record_error`), and any later terminal call on the same tracker — in
either order and of either kind — leaves the already-recorded elapsed
time unchanged. -/
theorem tracker_elapsed_idempotent (start t1 t2 : Nat) (s1 s2 : StatusCode)
    (e1 e2 : ReqwestErr) :
    (((RequestMetrics.new start).complete t1 s1).complete t2 s2).duration =
        ((RequestMetrics.new start).complete t1 s1).duration ∧
    (((RequestMetrics.new start).complete t1 s1).record_error t2 e2).duration =
        ((RequestMetrics.new start).complete t1 s1).duration ∧
    (((RequestMetrics.new start).record_error t1 e1).complete t2 s2).duration =
        ((RequestMetrics.new start).record_error t1 e1).duration ∧
    (((RequestMetrics.new start).record_error t1 e1).record_error t2 e2).duration =
        ((RequestMetrics.new start).record_error t1 e1).duration ∧
    ((RequestMetrics.new start).complete t1 s1).duration = some (t1 - start) ∧
    ((RequestMetrics.new start).record_error t1 e1).duration = some (t1 - start) := by
  refine ⟨rfl, rfl, rfl, rfl, rfl, rfl⟩

/-! ## C3 — classification of a plain-status outcome (corrected) -/

/-- C3 counterexample: for status 599 (no canonical reason phrase) the
appended error message is the status's `Display` rendering
`"599 <unknown status code>"`, not the bare numeric code `"599"` the claim
announces as fallback. -/
theorem status_fallback_message_cex :
    isSuccess 599 = false ∧ canonicalReason 599 = none ∧
    (TestMetrics.new.record_request
        ((RequestMetrics.new 0).complete 500000 599)).error_messages =
      ["599 <unknown status code>"] ∧
    ("599 <unknown status code>" : String) ≠ "599" := by
  refine ⟨rfl, rfl, rfl, by decide⟩

/-- C3 (amended): for an outcome carrying a status and no error — a 2xx
status increments `successful_requests` and leaves the error taxonomy
unchanged; any other status increments `failed_requests`, bumps
`error_counts["HTTP {code}"]`, and appends the status's canonical reason
phrase, falling back to the status's `Display` rendering
(`"{code} <unknown status code>"`) when no phrase is known. -/
theorem status_outcome_classification (m : TestMetrics) (st : Nat)
    (dur : Option Nat) (s : StatusCode) :
    if isSuccess s then
      (m.record_request ⟨st, dur, some s, none⟩).successful_requests =
          m.successful_requests + 1 ∧
      (m.record_request ⟨st, dur, some s, none⟩).failed_requests = m.failed_requests ∧
      (m.record_request ⟨st, dur, some s, none⟩).error_counts = m.error_counts ∧
      (m.record_request ⟨st, dur, some s, none⟩).error_messages = m.error_messages
    else
      (m.record_request ⟨st, dur, some s, none⟩).failed_requests =
          m.failed_requests + 1 ∧
      (m.record_request ⟨st, dur, some s, none⟩).successful_requests =
          m.successful_requests ∧
      (m.record_request ⟨st, dur, some s, none⟩).error_counts =
          incr m.error_counts ("HTTP " ++ toString s) ∧
      (m.record_request ⟨st, dur, some s, none⟩).error_messages =
          m.error_messages ++ [(canonicalReason s).getD (statusToString s)] := by
  cases dur <;>
    simp only [TestMetrics.record_request] <;>
    (try split_ifs) <;> simp_all

/-! ## C4 — classification of transport failures and degenerate outcomes -/

/-- C4: a transport failure with an associated status is bucketed under
the same `"HTTP {code}"` label a non-success status uses; a transport
failure without one, an outcome with neither status nor error, and an
outcome with both all land in the single generic `"Unknown Error"`
bucket; each case increments `failed_requests` by exactly 1, and the
transport-failure message is the error's descriptive text. -/
theorem transport_and_degenerate_classification (m : TestMetrics) (st : Nat)
    (dur : Option Nat) (e : ReqwestErr) (s0 : StatusCode) :
    ((m.record_request ⟨st, dur, none, some e⟩).failed_requests =
        m.failed_requests + 1 ∧
     (m.record_request ⟨st, dur, none, some e⟩).error_counts =
        incr m.error_counts
          ((e.status.map (fun s => "HTTP " ++ toString s)).getD "Unknown Error") ∧
     (m.record_request ⟨st, dur, none, some e⟩).error_messages =
        m.error_messages ++ [e.message]) ∧
    ((m.record_request ⟨st, dur, none, none⟩).failed_requests =
        m.failed_requests + 1 ∧
     (m.record_request ⟨st, dur, none, none⟩).error_counts =
        incr m.error_counts "Unknown Error") ∧
    ((m.record_request ⟨st, dur, some s0, some e⟩).failed_requests =
        m.failed_requests + 1 ∧
     (m.record_request ⟨st, dur, some s0, some e⟩).error_counts =
        incr m.error_counts "Unknown Error") := by
  cases dur <;>
    simp only [TestMetrics.record_request] <;>
    (try split_ifs) <;> simp_all

/-! ## C5 — histogram recording window (corrected) -/

/-- C5 counterexample: an elapsed time of 60_000_000_400 ns is
60_000_000.4 µs — outside the closed range `[1, 60_000_000]` µs the claim
requires — yet the sample is recorded (as its truncation 60_000_000 µs). -/
theorem histogram_over_range_truncation_cex :
    (60000000 : Nat) * 1000 < 60000000400 ∧
    (TestMetrics.new.record_request
        ⟨0, some 60000000400, some 200, none⟩).response_times = [60000000] := by
  exact ⟨by decide, rfl⟩

/-- C5 (amended): `record_request` records the elapsed time into the
histogram exactly when the elapsed duration truncated to whole
microseconds lies within the closed recordable range `[1, 60_000_000]`;
a sub-microsecond elapsed time is dropped rather than rounded up, and
dropping a sample never affects `total_requests` or the success/failure
classification counters. -/
theorem histogram_recording_range (m : TestMetrics) (st : Nat)
    (dur : Option Nat) (stat : Option StatusCode) (err : Option ReqwestErr) :
    (m.record_request ⟨st, dur, stat, err⟩).response_times =
      (match dur with
       | some d =>
           if 1 ≤ d / 1000 ∧ d / 1000 ≤ 60000000 then
             m.response_times ++ [d / 1000]
           else m.response_times
       | none => m.response_times) ∧
    (m.record_request ⟨st, dur, stat, err⟩).total_requests = m.total_requests + 1 ∧
    (m.record_request ⟨st, dur, stat, err⟩).successful_requests =
      (m.record_request ⟨st, none, stat, err⟩).successful_requests ∧
    (m.record_request ⟨st, dur, stat, err⟩).failed_requests =
      (m.record_request ⟨st, none, stat, err⟩).failed_requests := by
  cases stat <;> cases err <;> cases dur <;>
    simp only [TestMetrics.record_request, histRecord, histLow, histHigh] <;>
    (try split_ifs) <;> (try simp_all)

/-! ## C6 — finalize and throughput (corrected) -/

/-- C6 counterexample: finalizing a fresh aggregator (zero recorded
requests) with a 2-second wall duration yields
`requests_per_second = 0` while `total_duration ≠ 0`, so
"`requests_per_second == 0` iff `total_duration == 0`" fails. -/
theorem finalize_zero_requests_rps_cex :
    (TestMetrics.new.finalize 2000000000).requests_per_second = 0 ∧
    (TestMetrics.new.finalize 2000000000).total_duration ≠ 0 := by
  constructor
  · simp [TestMetrics.finalize, TestMetrics.new]
  · simp [TestMetrics.finalize, TestMetrics.new]

/-- C6 (amended): `finalize(d)` sets `total_duration` to `d` and sets
`requests_per_second` to `total_requests / d` (in seconds) when `d > 0`
and to 0 otherwise; consequently `requests_per_second == 0` iff
`total_duration == 0` or `total_requests == 0`, and otherwise the
quotient is exact. -/
theorem finalize_sets_duration_and_rps (m : TestMetrics) (d : Nat) :
    (m.finalize d).total_duration = d ∧
    (m.finalize d).requests_per_second =
      (if 0 < d then (m.total_requests : ℚ) / ((d : ℚ) / 1000000000) else 0) ∧
    ((m.finalize d).requests_per_second = 0 ↔ d = 0 ∨ m.total_requests = 0) := by
  refine ⟨rfl, rfl, ?_⟩
  simp only [TestMetrics.finalize]
  by_cases hd : 0 < d
  · simp only [hd, if_pos]
    rw [div_eq_zero_iff]
    have hden : ((d : ℚ) / 1000000000) ≠ 0 := by
      have : (d : ℚ) ≠ 0 := by
        exact_mod_cast Nat.pos_iff_ne_zero.mp hd
      positivity
    simp [hden]
    omega
  · simp only [hd, if_neg, not_false_iff]
    simp
    omega

/-! ## C9 — configuration validation (corrected) -/

/-- C9 counterexample: a positive timeout of 500 ms (together with a
valid URL, `requests = 1`, `concurrency = 1`) is rejected by
`LoadTestConfig::new`, because the code tests `timeout.as_secs() == 0`
on truncating whole seconds. -/
theorem config_subsecond_timeout_cex :
    (0 : Nat) < 500000000 ∧
    (LoadTestConfig.new "http://example.com" true .GET 1 1 500000000).isOk = false := by
  exact ⟨by decide, rfl⟩

/-- C9 (amended): `LoadTestConfig::new` returns an error exactly when the
URL fails to parse, `requests == 0`, `concurrency == 0`,
`concurrency > requests`, or the timeout truncated to whole seconds is 0
(i.e. the timeout is shorter than one second); on every other input it
returns the configuration unchanged, with an empty header list and no
body. -/
theorem config_validation (url : String) (uok : Bool) (method : HttpMethod)
    (requests concurrency t : Nat) :
    ((LoadTestConfig.new url uok method requests concurrency t).isOk = true ↔
      (uok = true ∧ 1 ≤ requests ∧ 1 ≤ concurrency ∧ concurrency ≤ requests ∧
        1 ≤ t / 1000000000)) ∧
    ((uok = true ∧ 1 ≤ requests ∧ 1 ≤ concurrency ∧ concurrency ≤ requests ∧
        1 ≤ t / 1000000000) →
      LoadTestConfig.new url uok method requests concurrency t =
        .ok { url := url, method := method, requests := requests,
              concurrency := concurrency, timeout := t,
              headers := [], body := none }) := by
  constructor
  · simp only [LoadTestConfig.new]
    split_ifs with h1 h2 h3 h4 h5 <;>
      simp_all [Except.isOk, Except.toBool] <;> (try omega)
  · rintro ⟨h1, h2, h3, h4, h5⟩
    simp only [LoadTestConfig.new]
    split_ifs <;> first | rfl | omega | simp_all

/-- C9 witness: a fully valid specification (valid URL, 10 requests,
concurrency 5, 5-second timeout) is accepted and returned unchanged. -/
theorem config_validation_witness :
    (LoadTestConfig.new "http://example.com" true .GET 10 5 5000000000).isOk = true ∧
    LoadTestConfig.new "http://example.com" true .GET 10 5 5000000000 =
      .ok { url := "http://example.com", method := .GET, requests := 10,
            concurrency := 5, timeout := 5000000000,
            headers := [], body := none } := by
  refine ⟨?_, ?_⟩
  · exact (config_validation "http://example.com" true .GET 10 5 5000000000).1.mpr
      (by refine ⟨rfl, by decide, by decide, by decide, by decide⟩)
  · exact (config_validation "http://example.com" true .GET 10 5 5000000000).2
      (by refine ⟨rfl, by decide, by decide, by decide, by decide⟩)

/-! ## C1 — the run records exactly N outcomes -/

theorem recordCompleted_total (m : TestMetrics) (r : CompletedRequest) :
    (recordCompleted m r).total_requests = m.total_requests + 1 := by
  cases hr : r.result <;> simp [recordCompleted, hr, record_request_total]

theorem recordCompleted_succ_add_failed (m : TestMetrics) (r : CompletedRequest) :
    (recordCompleted m r).successful_requests + (recordCompleted m r).failed_requests =
      m.successful_requests + m.failed_requests + 1 := by
  cases hr : r.result <;> simp [recordCompleted, hr, record_request_succ_add_failed]

theorem foldl_recordCompleted_total (rs : List CompletedRequest) :
    ∀ m : TestMetrics,
      (rs.foldl recordCompleted m).total_requests = m.total_requests + rs.length := by
  induction rs with
  | nil => intro m; simp
  | cons r rest ih =>
      intro m
      simp only [List.foldl_cons, List.length_cons, ih, recordCompleted_total]
      omega

theorem foldl_recordCompleted_succ_add_failed (rs : List CompletedRequest) :
    ∀ m : TestMetrics,
      (rs.foldl recordCompleted m).successful_requests +
          (rs.foldl recordCompleted m).failed_requests =
        m.successful_requests + m.failed_requests + rs.length := by
  induction rs with
  | nil => intro m; simp
  | cons r rest ih =>
      intro m
      simp only [List.foldl_cons, List.length_cons, ih, recordCompleted_succ_add_failed]
      omega

/-- C1: for every valid run specification (`N ≥ 1`, `1 ≤ C ≤ N`) and
every executor behavior in which each of the `N` requests resolves to
either a status or a transport error, `LoadTestEngine::run` records
exactly `N` outcomes: after the run,
`successful_requests + failed_requests = total_requests = N`, however
many individual requests fail. -/
theorem engine_run_counts_all_requests (N C : Nat)
    (completions : List CompletedRequest) (wall : Nat)
    (_hN : 1 ≤ N) (_hC1 : 1 ≤ C) (_hCN : C ≤ N)
    (hlen : completions.length = N) :
    (LoadTestEngine.run completions wall).successful_requests +
        (LoadTestEngine.run completions wall).failed_requests =
      (LoadTestEngine.run completions wall).total_requests ∧
    (LoadTestEngine.run completions wall).total_requests = N := by
  have htot := foldl_recordCompleted_total completions TestMetrics.new
  have hsf := foldl_recordCompleted_succ_add_failed completions TestMetrics.new
  simp only [LoadTestEngine.run, TestMetrics.finalize]
  constructor
  · simp only [TestMetrics.new] at htot hsf ⊢
    omega
  · simp only [TestMetrics.new] at htot ⊢
    omega

/-- C1 witness: a run of N = 2, C = 1 in which one request succeeds with
status 200 and one fails with a transport error records
`1 + 1 = 2 = total_requests`. -/
theorem engine_run_counts_all_requests_witness :
    (LoadTestEngine.run
        [⟨.ok 200, 0, 5000⟩, ⟨.err ⟨none, "connection refused"⟩, 0, 7000⟩]
        2000000000).successful_requests +
      (LoadTestEngine.run
        [⟨.ok 200, 0, 5000⟩, ⟨.err ⟨none, "connection refused"⟩, 0, 7000⟩]
        2000000000).failed_requests =
      (LoadTestEngine.run
        [⟨.ok 200, 0, 5000⟩, ⟨.err ⟨none, "connection refused"⟩, 0, 7000⟩]
        2000000000).total_requests ∧
    (LoadTestEngine.run
        [⟨.ok 200, 0, 5000⟩, ⟨.err ⟨none, "connection refused"⟩, 0, 7000⟩]
        2000000000).total_requests = 2 :=
  engine_run_counts_all_requests 2 1
    [⟨.ok 200, 0, 5000⟩, ⟨.err ⟨none, "connection refused"⟩, 0, 7000⟩]
    2000000000 (by decide) (by decide) (by decide) (by rfl)

/-! ## C2 — error taxonomy counts match failed_requests -/

/-- A sequence of `record_request` calls applied to an aggregator. -/
def recordSeq (m : TestMetrics) (rs : List RequestMetrics) : TestMetrics :=
  rs.foldl TestMetrics.record_request m

theorem recordSeq_keeps_taxonomy (rs : List RequestMetrics) :
    ∀ m : TestMetrics,
      sumCounts m.error_counts = m.failed_requests →
      m.error_messages.length = m.failed_requests →
      sumCounts (recordSeq m rs).error_counts = (recordSeq m rs).failed_requests ∧
        (recordSeq m rs).error_messages.length = (recordSeq m rs).failed_requests := by
  induction rs with
  | nil => intro m h1 h2; exact ⟨h1, h2⟩
  | cons r rest ih =>
      intro m h1 h2
      have hstep := record_request_keeps_taxonomy m r h1 h2
      simpa [recordSeq] using ih (m.record_request r) hstep.1 hstep.2

/-- C2: after any sequence of `record_request` calls on a freshly
constructed `TestMetrics`, the sum of all values in `error_counts` equals
`failed_requests`, and `error_messages` holds exactly one entry per
failure, so its length also equals `failed_requests`. -/
theorem taxonomy_counts_match_failures (rs : List RequestMetrics) :
    sumCounts (recordSeq TestMetrics.new rs).error_counts =
        (recordSeq TestMetrics.new rs).failed_requests ∧
      (recordSeq TestMetrics.new rs).error_messages.length =
        (recordSeq TestMetrics.new rs).failed_requests :=
  recordSeq_keeps_taxonomy rs TestMetrics.new rfl rfl

/-! ## C7 — percentile query ordering -/

theorem histSorted_length (h : List Nat) : (histSorted h).length = h.length :=
  (List.perm_insertionSort _ h).length_eq

theorem histSorted_sorted (h : List Nat) : (histSorted h).Sorted (· ≤ ·) :=
  List.sorted_insertionSort _ h

theorem histSorted_mem {h : List Nat} {x : Nat} : x ∈ histSorted h ↔ x ∈ h :=
  (List.perm_insertionSort _ h).mem_iff

theorem sorted_getD_mono {s : List Nat} (hs : s.Sorted (· ≤ ·)) {i j : Nat}
    (hij : i ≤ j) (hj : j < s.length) : s.getD i 0 ≤ s.getD j 0 := by
  have hi : i < s.length := Nat.lt_of_le_of_lt hij hj
  rw [List.getD_eq_getElem s 0 hi, List.getD_eq_getElem s 0 hj]
  have hrel := hs.rel_get_of_le (a := ⟨i, hi⟩) (b := ⟨j, hj⟩) (by simpa using hij)
  simpa using hrel

theorem histMin_le_mem {h : List Nat} {x : Nat} (hx : x ∈ h) : histMin h ≤ x := by
  have hxs : x ∈ histSorted h := histSorted_mem.mpr hx
  obtain ⟨i, hi, hix⟩ := List.mem_iff_getElem.mp hxs
  have hmono := sorted_getD_mono (histSorted_sorted h) (Nat.zero_le i) hi
  rw [List.getD_eq_getElem _ 0 hi, hix] at hmono
  exact hmono

theorem mem_le_histMax {h : List Nat} {x : Nat} (hx : x ∈ h) : x ≤ histMax h := by
  have hxs : x ∈ histSorted h := histSorted_mem.mpr hx
  obtain ⟨i, hi, hix⟩ := List.mem_iff_getElem.mp hxs
  have hlast : (histSorted h).length - 1 < (histSorted h).length := by omega
  have hmono := sorted_getD_mono (histSorted_sorted h)
    (Nat.le_sub_one_of_lt hi) hlast
  rw [List.getD_eq_getElem _ 0 hi, hix] at hmono
  exact hmono

theorem histMin_le_histMean {h : List Nat} (hne : h ≠ []) :
    histMin h ≤ histMean h := by
  have hn : 0 < h.length := List.length_pos.mpr hne
  have hall : ∀ x ∈ h, histMin h ≤ x := fun x hx => histMin_le_mem hx
  have hsum := List.card_nsmul_le_sum h (histMin h) hall
  rw [smul_eq_mul, Nat.mul_comm] at hsum
  rw [histMean, Nat.le_div_iff_mul_le hn]
  exact hsum

theorem histMean_le_histMax {h : List Nat} (hne : h ≠ []) :
    histMean h ≤ histMax h := by
  have hn : 0 < h.length := List.length_pos.mpr hne
  have hall : ∀ x ∈ h, x ≤ histMax h := fun x hx => mem_le_histMax hx
  have hsum := List.sum_le_card_nsmul h (histMax h) hall
  rw [smul_eq_mul] at hsum
  calc h.sum / h.length ≤ h.length * histMax h / h.length :=
        Nat.div_le_div_right (by omega)
    _ = histMax h := Nat.mul_div_cancel_left _ hn

theorem percentileRank_pos (p n : Nat) : 1 ≤ percentileRank p n :=
  le_max_left 1 _

theorem percentileRank_le {p n : Nat} (hp : p ≤ 100) (hn : 1 ≤ n) :
    percentileRank p n ≤ n := by
  have h1 : p * n ≤ 100 * n := Nat.mul_le_mul_right n hp
  simp only [percentileRank]
  omega

theorem percentileRank_mono {p q : Nat} (n : Nat) (hpq : p ≤ q) :
    percentileRank p n ≤ percentileRank q n := by
  have h1 : p * n ≤ q * n := Nat.mul_le_mul_right n hpq
  simp only [percentileRank]
  omega

/-- C7: the derived read queries min/max/mean/median/p95/p99 response
time all return a zero duration when the histogram holds zero samples;
for any histogram state with at least one sample, the orderings
`min ≤ median ≤ p95 ≤ p99 ≤ max` and `min ≤ mean ≤ max` hold. -/
theorem percentile_query_ordering (m : TestMetrics) :
    (m.response_times = [] →
      m.min_response_time = 0 ∧ m.max_response_time = 0 ∧
      m.mean_response_time = 0 ∧ m.median_response_time = 0 ∧
      m.p95_response_time = 0 ∧ m.p99_response_time = 0) ∧
    (m.response_times ≠ [] →
      m.min_response_time ≤ m.median_response_time ∧
      m.median_response_time ≤ m.p95_response_time ∧
      m.p95_response_time ≤ m.p99_response_time ∧
      m.p99_response_time ≤ m.max_response_time ∧
      m.min_response_time ≤ m.mean_response_time ∧
      m.mean_response_time ≤ m.max_response_time) := by
  constructor
  · intro he
    simp [TestMetrics.min_response_time, TestMetrics.max_response_time,
      TestMetrics.mean_response_time, TestMetrics.median_response_time,
      TestMetrics.p95_response_time, TestMetrics.p99_response_time, he]
  · intro hne
    have hn : 0 < m.response_times.length := List.length_pos.mpr hne
    have hnz : ¬ m.response_times.length = 0 := by omega
    have hlen : (histSorted m.response_times).length = m.response_times.length :=
      histSorted_length _
    have hs := histSorted_sorted m.response_times
    have h50le := percentileRank_le (p := 50) (n := m.response_times.length)
      (by decide) hn
    have h95le := percentileRank_le (p := 95) (n := m.response_times.length)
      (by decide) hn
    have h99le := percentileRank_le (p := 99) (n := m.response_times.length)
      (by decide) hn
    have h50pos := percentileRank_pos 50 m.response_times.length
    have h95pos := percentileRank_pos 95 m.response_times.length
    have h99pos := percentileRank_pos 99 m.response_times.length
    have h5095 := percentileRank_mono m.response_times.length
      (p := 50) (q := 95) (by decide)
    have h9599 := percentileRank_mono m.response_times.length
      (p := 95) (q := 99) (by decide)
    simp only [TestMetrics.min_response_time, TestMetrics.max_response_time,
      TestMetrics.mean_response_time, TestMetrics.median_response_time,
      TestMetrics.p95_response_time, TestMetrics.p99_response_time,
      hnz, if_false]
    refine ⟨?_, ?_, ?_, ?_, ?_, ?_⟩
    · exact sorted_getD_mono hs (Nat.zero_le _) (by omega)
    · exact sorted_getD_mono hs (by omega) (by omega)
    · exact sorted_getD_mono hs (by omega) (by omega)
    · exact sorted_getD_mono hs (by omega) (by omega)
    · exact histMin_le_histMean hne
    · exact histMean_le_histMax hne

/-- A concrete aggregator state with three histogram samples, used to
instantiate the percentile-ordering theorem. -/
def sampleMetrics : TestMetrics :=
  { TestMetrics.new with response_times := [100, 300, 500] }

/-- C7 witness: the zero-sample clause at the fresh aggregator, and the
ordering clause at a three-sample aggregator. -/
theorem percentile_query_ordering_witness :
    (TestMetrics.new.min_response_time = 0 ∧ TestMetrics.new.max_response_time = 0 ∧
      TestMetrics.new.mean_response_time = 0 ∧ TestMetrics.new.median_response_time = 0 ∧
      TestMetrics.new.p95_response_time = 0 ∧ TestMetrics.new.p99_response_time = 0) ∧
    (sampleMetrics.min_response_time ≤ sampleMetrics.median_response_time ∧
      sampleMetrics.median_response_time ≤ sampleMetrics.p95_response_time ∧
      sampleMetrics.p95_response_time ≤ sampleMetrics.p99_response_time ∧
      sampleMetrics.p99_response_time ≤ sampleMetrics.max_response_time ∧
      sampleMetrics.min_response_time ≤ sampleMetrics.mean_response_time ∧
      sampleMetrics.mean_response_time ≤ sampleMetrics.max_response_time) :=
  ⟨(percentile_query_ordering TestMetrics.new).1 rfl,
   (percentile_query_ordering sampleMetrics).2 (by decide)⟩

/-! ## C10 — at most C requests in flight -/

/-- C10: at no instant during a run are more than C requests concurrently
in flight: every scheduler state reachable under `buffer_unordered(C)`
keeps `inFlight ≤ C`, and the `N` logical requests are conserved across
pending/in-flight/completed. -/
theorem scheduler_inflight_bounded (C N : Nat) (s : SchedState)
    (h : SchedReachable C N s) :
    s.inFlight ≤ C ∧ s.pending + s.inFlight + s.completed = N := by
  induction h with
  | init => simp
  | step s t hr hstep ih =>
      cases hstep with
      | start hp hC =>
          simp only at *
          omega
      | finish hf =>
          simp only at *
          omega

/-- C10 witness: with N = 3 and C = 2, the state reached after starting
two requests has 2 ≤ 2 in flight and conserves the three requests. -/
theorem scheduler_inflight_bounded_witness :
    (⟨1, 2, 0⟩ : SchedState).inFlight ≤ 2 ∧ 1 + 2 + 0 = 3 :=
  scheduler_inflight_bounded 2 3 ⟨1, 2, 0⟩
    (SchedReachable.step ⟨2, 1, 0⟩ ⟨1, 2, 0⟩
      (SchedReachable.step ⟨3, 0, 0⟩ ⟨2, 1, 0⟩ SchedReachable.init
        (SchedStep.start ⟨3, 0, 0⟩ (by decide) (by decide)))
      (SchedStep.start ⟨2, 1, 0⟩ (by decide) (by decide)))

end Lode
